import Mathlib

/-!
Shallow embedding of the service health monitoring and automated recovery
orchestrator of this repository (file scripts/incident_response_automation.py).

Modelling conventions:
- The outcome of an external subprocess call (subprocess.run) is an
  environment input of type RunOutcome: the call either completed with an
  exit code plus captured stdout/stderr, timed out, or raised an exception.
- The outcome of the Slack webhook post and of the sqlite write are Boolean
  environment inputs (success or failure); the corresponding Python
  functions catch every exception, which the embedding reflects by total
  functions over an explicit Except value.
- Wall-clock time is abstracted by the tick index, used as the start_time
  that the database assigns to an inserted incident row.
- The module-level dictionaries SERVICES_TO_MONITOR and RECOVERY_COMMANDS
  are association lists (Python dict keys are unique and iteration order is
  insertion order); the orchestrator is stated generically over such
  configuration lists, and the concrete dictionaries of the script are the
  constants below.
- Alerts are recorded at the moment send_slack_alert builds its payload and
  attempts delivery; the presentation attributes of the payload (color,
  emoji, title casing, human readable timestamp) are pure functions of the
  alert type and are kept alongside but not inside the Alert record.
-/

namespace IRA

/-- The Python status values: None (before any assignment), "up", "down". -/
inductive Status where
| unknown
| up
| down
deriving DecidableEq

/-- Outcome of one subprocess.run invocation, as seen by the caller. -/
inductive RunOutcome where
| completed (returncode : Int) (stdout stderr : String)
| timedOut
| raised (msg : String)
deriving DecidableEq

/-- Python `a or b` on strings: the empty string is falsy. -/
def pyOr (a b : String) : String := if a = "" then b else a

/-- Python slicing `s[:200]`: the first 200 characters. -/
def pySlice200 (s : String) : String := String.mk (s.data.take 200)

/-- Embedding of check_service_health (lines 68 to 79): classify the probe
outcome; exit code 0 is healthy; a failed run yields stderr or stdout or
"Unknown error", stripped and truncated to 200 characters; a timeout yields
"Health check timeout"; any exception yields its text truncated to 200
characters. Total, hence it never raises to its caller. -/
def check_service_health (o : RunOutcome) : Bool × String :=
  match o with
  | RunOutcome.completed rc out err =>
      if rc = 0 then (true, "OK")
      else (false, pySlice200 (pyOr err (pyOr out "Unknown error")).trim)
  | RunOutcome.timedOut => (false, "Health check timeout")
  | RunOutcome.raised msg => (false, pySlice200 msg)

/-- Embedding of attempt_recovery (lines 81 to 96): success exactly when the
recovery command completed with exit code 0; timeout or exception is failure. -/
def attempt_recovery (o : RunOutcome) : Bool :=
  match o with
  | RunOutcome.completed rc _ _ => rc == 0
  | RunOutcome.timedOut => false
  | RunOutcome.raised _ => false

/-- An alert handed to the notifier: service name, alert type, detail text. -/
structure Alert where
  service : String
  alert_type : String
  details : String
deriving DecidableEq

/-- The color attached to an alert payload (the color_map of line 100). -/
def alert_color (alert_type : String) : String :=
  if alert_type = "down" then "#FF0000"
  else if alert_type = "recovered" then "#00CC00"
  else if alert_type = "recovery_failed" then "#FF6600"
  else "#CCCCCC"

/-- The webhook delivery attempt: succeeds or fails depending on the network. -/
def post_webhook (ok : Bool) : Except String Unit :=
  if ok then Except.ok () else Except.error "requests.post failed"

/-- Embedding of send_slack_alert (lines 98 to 115): the payload is built and
delivery is attempted; an exception from the post is caught and logged, so the
list of alerts produced is extended whether or not delivery succeeded. -/
def send_slack_alert (notifyOk : Bool) (sent : List Alert)
    (service_name alert_type details : String) : List Alert :=
  let sent2 := sent ++ [{ service := service_name, alert_type := alert_type,
                          details := details }]
  match post_webhook notifyOk with
  | Except.ok _ => sent2
  | Except.error _ => sent2

/-- One row of the incidents table (schema of lines 39 to 50). -/
structure Incident where
  service_name : String
  incident_type : String
  start_time : Nat
  end_time : Option Nat
  recovery_attempts : Option Nat
  recovery_successful : Option Bool
  details : String
deriving DecidableEq

/-- The raw sqlite INSERT: fails or appends one row. -/
def db_insert (writeOk : Bool) (db : List Incident) (row : Incident) :
    Except String (List Incident) :=
  if writeOk then Except.ok (db ++ [row]) else Except.error "sqlite3 error"

/-- Embedding of log_incident (lines 54 to 66): insert a row with
recovery_successful = false, end_time and recovery_attempts absent (the INSERT
names neither column); any exception is caught and logged, leaving the table
unchanged. Total, hence a write failure never raises out of the tick. -/
def log_incident (writeOk : Bool) (db : List Incident) (now : Nat)
    (service_name incident_type details : String) : List Incident :=
  match db_insert writeOk db
      { service_name := service_name, incident_type := incident_type,
        start_time := now, end_time := none, recovery_attempts := none,
        recovery_successful := some false, details := details } with
  | Except.ok db2 => db2
  | Except.error _ => db

/-- The external world as seen by one service during one tick. -/
structure SvcEnv where
  probeOutcome : RunOutcome
  recoveryOutcome : RunOutcome
  notifyOk : Bool
  storeOk : Bool
deriving DecidableEq

/-- Per-service environment of a tick. -/
abbrev Env := String → SvcEnv

/-- The observable state of the orchestrator: the module level dictionary
service_status (line 117), together with the cumulative traces of alerts
produced, incident rows stored, and recovery invocations made. -/
structure OrchState where
  service_status : String → Status
  alerts : List Alert
  incidents : List Incident
  recoveries : List String

/-- Python dictionary assignment on the status map. -/
def updateStatus (m : String → Status) (k : String) (v : Status) :
    String → Status :=
  fun k2 => if k2 = k then v else m k2

/-- The body of the per-service loop of monitor_services (lines 121 to 143),
for one service. The argument p is one (name, check_command) item of
SERVICES_TO_MONITOR; the command string itself is consumed by subprocess.run,
whose outcome is read from the environment. -/
def processService (recovery : List (String × String)) (env : Env) (now : Nat)
    (st : OrchState) (p : String × String) : OrchState :=
  let service_name := p.1
  let e := env service_name
  let pr := check_service_health e.probeOutcome
  if pr.1 then
    let st1 :=
      if st.service_status service_name = Status.down then
        let a1 := send_slack_alert e.notifyOk st.alerts service_name
          "recovered" (service_name ++ " has recovered")
        { st with alerts := a1 }
      else st
    let s1 := updateStatus st1.service_status service_name Status.up
    { st1 with service_status := s1 }
  else
    let st1 :=
      if st.service_status service_name ≠ Status.down then
        let a1 := send_slack_alert e.notifyOk st.alerts service_name
          "down" ("Error: " ++ pr.2)
        let stA := { st with alerts := a1 }
        let i1 := log_incident e.storeOk stA.incidents now
          service_name "service_failure" pr.2
        { stA with incidents := i1 }
      else st
    if (recovery.lookup service_name).isSome then
      let st2 := { st1 with recoveries := st1.recoveries ++ [service_name] }
      if attempt_recovery e.recoveryOutcome then
        let a2 := send_slack_alert e.notifyOk st2.alerts service_name
          "recovered" "Auto-recovery successful"
        let st3 := { st2 with alerts := a2 }
        let s2 := updateStatus st3.service_status service_name Status.up
        { st3 with service_status := s2 }
      else
        let a2 := send_slack_alert e.notifyOk st2.alerts service_name
          "recovery_failed" "Please investigate manually"
        let st3 := { st2 with alerts := a2 }
        let s2 := updateStatus st3.service_status service_name Status.down
        { st3 with service_status := s2 }
    else st1

/-- Embedding of monitor_services (lines 119 to 143): one tick, iterating the
monitored services in order. -/
def monitor_services (services recovery : List (String × String)) (env : Env)
    (now : Nat) (st : OrchState) : OrchState :=
  services.foldl (processService recovery env now) st

/-- The state set up by main (lines 149 to 151): every status is None, the
incidents table is empty, nothing has been sent or attempted yet. -/
def initState : OrchState :=
  { service_status := fun _ => Status.unknown, alerts := [], incidents := [],
    recoveries := [] }

/-- Embedding of the loop of main (lines 153 to 156): n ticks from the initial
state, the tick index serving as the clock. -/
def runTicks (services recovery : List (String × String)) (envs : Nat → Env) :
    Nat → OrchState
  | 0 => initState
  | n + 1 => monitor_services services recovery (envs n) n
      (runTicks services recovery envs n)

/-- The concrete monitored services of the script (lines 11 to 16). -/
def SERVICES_TO_MONITOR : List (String × String) :=
  [("nginx", "/usr/sbin/nginx -t"),
   ("postgresql", "pg_isready -h localhost"),
   ("redis", "redis-cli ping"),
   ("application", "curl -s http://localhost:8000/health")]

/-- The concrete recovery commands of the script (lines 18 to 23). -/
def RECOVERY_COMMANDS : List (String × String) :=
  [("nginx", "sudo systemctl restart nginx"),
   ("postgresql", "sudo systemctl restart postgresql"),
   ("redis", "sudo systemctl restart redis-server"),
   ("application", "sudo systemctl restart application")]

/-! Decomposition layer: one processService step, split into the pure
contribution it makes to each field of the state. These step functions are
proof devices; the lemma processService_decomp ties them to the embedding. -/

/-- The status assignment (if any) a step performs: up on a healthy probe; on
an unhealthy probe, up or down after a configured recovery attempt, and no
assignment at all when no recovery command is configured. -/
def stepStatusWrite (recovery : List (String × String)) (name : String)
    (po ro : RunOutcome) : Option Status :=
  if (check_service_health po).1 then some Status.up
  else if (recovery.lookup name).isSome then
    if attempt_recovery ro then some Status.up else some Status.down
  else none

/-- The alerts a step produces, as a function of the probe and recovery
outcomes and the previous status of the service. -/
def stepAlerts (recovery : List (String × String)) (name : String)
    (po ro : RunOutcome) (prev : Status) : List Alert :=
  let pr := check_service_health po
  if pr.1 then
    if prev = Status.down then
      [{ service := name, alert_type := "recovered",
         details := name ++ " has recovered" }]
    else []
  else
    (if prev ≠ Status.down then
      [{ service := name, alert_type := "down",
         details := "Error: " ++ pr.2 }]
     else [])
    ++ (if (recovery.lookup name).isSome then
          if attempt_recovery ro then
            [{ service := name, alert_type := "recovered",
               details := "Auto-recovery successful" }]
          else
            [{ service := name, alert_type := "recovery_failed",
               details := "Please investigate manually" }]
        else [])

/-- The incident rows a step appends to the table. -/
def stepIncidents (name : String) (po : RunOutcome) (storeOk : Bool)
    (now : Nat) (prev : Status) : List Incident :=
  let pr := check_service_health po
  if pr.1 then []
  else if prev ≠ Status.down then
    log_incident storeOk [] now name "service_failure" pr.2
  else []

/-- The recovery invocations a step makes. -/
def stepRecoveries (recovery : List (String × String)) (name : String)
    (po : RunOutcome) : List String :=
  if (check_service_health po).1 then []
  else if (recovery.lookup name).isSome then [name] else []

lemma send_slack_alert_eq (notifyOk : Bool) (sent : List Alert)
    (a b c : String) :
    send_slack_alert notifyOk sent a b c =
      sent ++ [{ service := a, alert_type := b, details := c }] := by
  cases notifyOk <;> rfl

lemma log_incident_append (writeOk : Bool) (db : List Incident) (now : Nat)
    (a b c : String) :
    log_incident writeOk db now a b c = db ++ log_incident writeOk [] now a b c := by
  cases writeOk <;> simp [log_incident, db_insert]

set_option maxRecDepth 4000 in
lemma processService_decomp (recovery : List (String × String)) (env : Env)
    (now : Nat) (st : OrchState) (p : String × String) :
    processService recovery env now st p =
      { service_status :=
          match stepStatusWrite recovery p.1 (env p.1).probeOutcome
              (env p.1).recoveryOutcome with
          | some v => updateStatus st.service_status p.1 v
          | none => st.service_status,
        alerts := st.alerts ++ stepAlerts recovery p.1 (env p.1).probeOutcome
          (env p.1).recoveryOutcome (st.service_status p.1),
        incidents := st.incidents ++ stepIncidents p.1 (env p.1).probeOutcome
          (env p.1).storeOk now (st.service_status p.1),
        recoveries := st.recoveries ++ stepRecoveries recovery p.1
          (env p.1).probeOutcome } := by
  by_cases h1 : (check_service_health (env p.1).probeOutcome).1 = true <;>
  by_cases h2 : st.service_status p.1 = Status.down <;>
  by_cases h3 : (recovery.lookup p.1).isSome = true <;>
  by_cases h4 : attempt_recovery (env p.1).recoveryOutcome = true <;>
  by_cases h5 : (env p.1).storeOk = true <;>
  simp [processService, stepStatusWrite, stepAlerts, stepIncidents,
    stepRecoveries, send_slack_alert_eq, log_incident, db_insert,
    h1, h2, h3, h4, h5]

/-! Concrete scenario environments used by the closed theorems below. -/

/-- Every probe raises "connection refused"; recovery commands exit 1; the
webhook and the store work. -/
def probeFailEnv : Env := fun _ =>
  { probeOutcome := RunOutcome.raised "connection refused",
    recoveryOutcome := RunOutcome.completed 1 "" "",
    notifyOk := true, storeOk := true }

/-- Every probe and every recovery command exits 0. -/
def probeOkEnv : Env := fun _ =>
  { probeOutcome := RunOutcome.completed 0 "" "",
    recoveryOutcome := RunOutcome.completed 0 "" "",
    notifyOk := true, storeOk := true }

/-- Probes fail on tick 0 and succeed afterwards. -/
def failThenOkEnvs : Nat → Env := fun t =>
  if t = 0 then probeFailEnv else probeOkEnv

/-- Probes fail on ticks 0 and 1 and succeed afterwards. -/
def failTwiceEnvs : Nat → Env := fun t =>
  if t ≤ 1 then probeFailEnv else probeOkEnv

/-- Claim C1 (code_bug evidence): a monitored service with no configured
recovery command whose probe fails on three consecutive ticks receives a
"down" alert on every one of those ticks, not exactly one per unhealthy
period, because the code never assigns status "down" in the no-recovery
branch: the status is still the initial None value after all three ticks. -/
theorem C1_down_alert_repeats_without_recovery_command :
    ((runTicks [("web", "curl -s http://web/health")] []
        (fun _ => probeFailEnv) 3).alerts.filter
          (fun a => a.alert_type = "down")).length = 3
    ∧ (runTicks [("web", "curl -s http://web/health")] []
        (fun _ => probeFailEnv) 3).service_status "web" = Status.unknown := by
  exact ⟨by decide, by decide⟩

/-- Claim C4 (code_bug evidence): after the first completed probe of a
service with no configured recovery command fails, the status of the service
is still Unknown (the Python None), not Up or Down: the unhealthy branch
assigns a status only when a recovery command is configured. -/
theorem C4_status_still_unknown_after_first_probe :
    (runTicks [("web", "curl -s http://web/health")] []
        (fun _ => probeFailEnv) 1).service_status "web" = Status.unknown
    ∧ (runTicks [("web", "curl -s http://web/health")] []
        (fun _ => probeFailEnv) 1).alerts.length = 1 := by
  exact ⟨by decide, by decide⟩

/-- Claim C2 (code_bug evidence): a service goes down on tick 0 (one incident
row inserted) and its probe succeeds on tick 1, a Down to Up transition that
emits exactly one "recovered" alert; but the incident row is never closed:
after the transition its end_time is still NULL and recovery_successful is
still false, because the program contains no UPDATE of the incidents table. -/
theorem C2_recovered_alert_but_incident_never_closed :
    ((runTicks [("db", "pg_isready")] [("db", "restart db")]
        failThenOkEnvs 2).alerts.filter
          (fun a => a.alert_type = "recovered")).length = 1
    ∧ (runTicks [("db", "pg_isready")] [("db", "restart db")]
        failThenOkEnvs 2).incidents.map
          (fun i => (i.end_time, i.recovery_successful)) = [(none, some false)] := by
  exact ⟨by decide, by decide⟩

/-- Claim C3 (code_bug evidence): the recovery executor is invoked twice
during the down period (ticks 0 and 1) and the service recovers on tick 2,
but the persisted incident row still carries recovery_attempts NULL: the
INSERT never names the column and no UPDATE increments it. -/
theorem C3_attempt_count_never_recorded :
    (runTicks [("db", "pg_isready")] [("db", "restart db")]
        failTwiceEnvs 3).recoveries.length = 2
    ∧ (runTicks [("db", "pg_isready")] [("db", "restart db")]
        failTwiceEnvs 3).incidents.map (fun i => i.recovery_attempts) = [none] := by
  exact ⟨by decide, by decide⟩

/-- Claim C6 (counterexample): on a probe timeout the code returns the detail
string "Health check timeout", not the string "timeout" the claim names. -/
theorem C6_timeout_detail_is_not_the_string_timeout :
    check_service_health RunOutcome.timedOut ≠ (false, "timeout")
    ∧ check_service_health RunOutcome.timedOut = (false, "Health check timeout") := by
  exact ⟨by decide, by decide⟩

lemma pySlice200_length (s : String) : (pySlice200 s).length ≤ 200 := by
  simp [pySlice200]

/-- Claim C6 (amended): the probe classifier is a total function of the run
outcome, so it never raises to its caller; a completed check is healthy
exactly when its exit code is 0; a timeout yields (false, "Health check
timeout"); an exception yields its text truncated to 200 characters; and the
detail string never exceeds 200 characters. -/
theorem C6_probe_contract (o : RunOutcome) :
    (∀ rc out err, o = RunOutcome.completed rc out err →
        ((check_service_health o).1 = true ↔ rc = 0))
    ∧ (o = RunOutcome.timedOut →
        check_service_health o = (false, "Health check timeout"))
    ∧ (∀ m, o = RunOutcome.raised m →
        check_service_health o = (false, pySlice200 m))
    ∧ (check_service_health o).2.length ≤ 200 := by
  refine ⟨?_, ?_, ?_, ?_⟩
  · rintro rc out err rfl
    by_cases h : rc = 0 <;> simp [check_service_health, h]
  · rintro rfl; rfl
  · rintro m rfl; rfl
  · cases o with
    | completed rc out err =>
        by_cases h : rc = 0 <;>
          simp [check_service_health, h, pySlice200_length]
        decide
    | timedOut => decide
    | raised m => exact pySlice200_length m

/-- Claim C6 (witness): the amended contract evaluated at concrete outcomes. -/
theorem C6_probe_contract_witness :
    check_service_health RunOutcome.timedOut = (false, "Health check timeout")
    ∧ check_service_health (RunOutcome.raised "boom") = (false, pySlice200 "boom")
    ∧ ((check_service_health (RunOutcome.completed 0 "" "")).1 = true ↔ (0 : Int) = 0) := by
  exact ⟨(C6_probe_contract RunOutcome.timedOut).2.1 rfl,
    (C6_probe_contract (RunOutcome.raised "boom")).2.2.1 "boom" rfl,
    (C6_probe_contract (RunOutcome.completed 0 "" "")).1 0 "" "" rfl⟩

/-! Incident table facts for claim C7. -/

/-- The shape every row inserted by log_incident has: open end time, absent
attempt count, outcome false. -/
def unclosedRow (i : Incident) : Prop :=
  i.end_time = none ∧ i.recovery_attempts = none ∧ i.recovery_successful = some false

lemma stepIncidents_shape (name : String) (po : RunOutcome) (storeOk : Bool)
    (now : Nat) (prev : Status) :
    ∀ i ∈ stepIncidents name po storeOk now prev, unclosedRow i := by
  intro i hi
  by_cases h1 : (check_service_health po).1 = true
  · simp [stepIncidents, h1] at hi
  · by_cases h2 : prev = Status.down
    · simp [stepIncidents, h1, h2] at hi
    · by_cases h5 : storeOk = true
      · simp [stepIncidents, log_incident, db_insert, h1, h2, h5] at hi
        simp [unclosedRow, hi]
      · simp [stepIncidents, log_incident, db_insert, h1, h2, h5] at hi

lemma monitor_incidents_append (S R : List (String × String)) (env : Env)
    (now : Nat) (st : OrchState) :
    ∃ tail, (monitor_services S R env now st).incidents = st.incidents ++ tail
      ∧ ∀ i ∈ tail, unclosedRow i := by
  induction S generalizing st with
  | nil => exact ⟨[], by simp [monitor_services], by simp⟩
  | cons p rest ih =>
      obtain ⟨tail2, htl, hsh⟩ := ih (processService R env now st p)
      refine ⟨stepIncidents p.1 (env p.1).probeOutcome (env p.1).storeOk now
        (st.service_status p.1) ++ tail2, ?_, ?_⟩
      · have : (monitor_services (p :: rest) R env now st)
            = monitor_services rest R env now (processService R env now st p) := by
          simp [monitor_services]
        rw [this, htl, processService_decomp]
        simp
      · intro i hi
        rcases List.mem_append.mp hi with h | h
        · exact stepIncidents_shape _ _ _ _ _ i h
        · exact hsh i h

lemma runTicks_incidents_shape (S R : List (String × String)) (envs : Nat → Env)
    (n : Nat) : ∀ i ∈ (runTicks S R envs n).incidents, unclosedRow i := by
  induction n with
  | zero => simp [runTicks, initState]
  | succ n ih =>
      intro i hi
      obtain ⟨tail, htl, hsh⟩ :=
        monitor_incidents_append S R (envs n) n (runTicks S R envs n)
      rw [runTicks, htl] at hi
      rcases List.mem_append.mp hi with h | h
      · exact ih i h
      · exact hsh i h

lemma runTicks_incidents_mono (S R : List (String × String)) (envs : Nat → Env)
    (n k : Nat) :
    ∃ tail, (runTicks S R envs (n + k)).incidents
      = (runTicks S R envs n).incidents ++ tail := by
  induction k with
  | zero => exact ⟨[], by simp⟩
  | succ k ih =>
      obtain ⟨tail, htl⟩ := ih
      obtain ⟨tail2, htl2, _⟩ := monitor_incidents_append S R (envs (n + k))
        (n + k) (runTicks S R envs (n + k))
      refine ⟨tail ++ tail2, ?_⟩
      have : n + (k + 1) = (n + k) + 1 := rfl
      rw [this, runTicks, htl2, htl]
      simp

/-- Claim C7 (counterexample): the incident row created when service "web"
goes down carries recovery_successful = false from the moment of its
creation, not the NULL the claim requires until closure. -/
theorem C7_outcome_not_null_at_creation :
    (runTicks [("web", "curl -s http://web/health")] []
        (fun _ => probeFailEnv) 1).incidents.map
          (fun i => i.recovery_successful) = [some false]
    ∧ (runTicks [("web", "curl -s http://web/health")] []
        (fun _ => probeFailEnv) 1).incidents.map
          (fun i => i.recovery_successful) ≠ [(none : Option Bool)] := by
  exact ⟨by decide, by decide⟩

/-- Claim C7 (amended): in every run, every persisted incident row keeps its
end time NULL and its attempt count NULL, and carries recovery outcome false
(not NULL) from creation; the table is append-only, so no row is ever mutated
after it is created (in particular no row is ever closed). -/
theorem C7_incident_rows (S R : List (String × String)) (envs : Nat → Env)
    (n k : Nat) :
    (∀ i, i ∈ (runTicks S R envs n).incidents →
      i.end_time = none ∧ i.recovery_attempts = none
        ∧ i.recovery_successful = some false)
    ∧ ∃ tail, (runTicks S R envs (n + k)).incidents
        = (runTicks S R envs n).incidents ++ tail := by
  exact ⟨fun i hi => runTicks_incidents_shape S R envs n i hi,
    runTicks_incidents_mono S R envs n k⟩

/-- Claim C7 (witness): the amended statement applied to the concrete one
service run of the counterexample, at the concrete row it inserts. -/
theorem C7_incident_rows_witness :
    ({ service_name := "web", incident_type := "service_failure",
       start_time := 0, end_time := none, recovery_attempts := none,
       recovery_successful := some false,
       details := "connection refused" } : Incident).end_time = none
    ∧ ∃ tail, (runTicks [("web", "curl -s http://web/health")] []
        (fun _ => probeFailEnv) (1 + 1)).incidents
        = (runTicks [("web", "curl -s http://web/health")] []
            (fun _ => probeFailEnv) 1).incidents ++ tail := by
  refine ⟨((C7_incident_rows [("web", "curl -s http://web/health")] []
    (fun _ => probeFailEnv) 1 1).1 _ (by decide)).1,
    (C7_incident_rows [("web", "curl -s http://web/health")] []
      (fun _ => probeFailEnv) 1 1).2⟩

/-! Recovery invocation facts for claim C5. -/

/-- Concatenation of the images of a list function. -/
def listJoinMap {α β : Type} (f : α → List β) : List α → List β
  | [] => []
  | a :: rest => f a ++ listJoinMap f rest

lemma monitor_recoveries (S R : List (String × String)) (env : Env)
    (now : Nat) (st : OrchState) :
    (monitor_services S R env now st).recoveries
      = st.recoveries
        ++ listJoinMap (fun p => stepRecoveries R p.1 (env p.1).probeOutcome) S := by
  induction S generalizing st with
  | nil => simp [monitor_services, listJoinMap]
  | cons p rest ih =>
      have hstep : (monitor_services (p :: rest) R env now st)
          = monitor_services rest R env now (processService R env now st p) := by
        simp [monitor_services]
      rw [hstep, ih, processService_decomp]
      simp [listJoinMap]

lemma stepRecoveries_cases (R : List (String × String)) (name : String)
    (po : RunOutcome) :
    stepRecoveries R name po = []
      ∨ (stepRecoveries R name po = [name]
          ∧ (check_service_health po).1 = false ∧ (R.lookup name).isSome = true) := by
  by_cases h1 : (check_service_health po).1 = true <;>
  by_cases h3 : (R.lookup name).isSome = true <;>
  simp [stepRecoveries, h1, h3]

lemma tickRecoveries_sublist (S R : List (String × String)) (env : Env) :
    (listJoinMap (fun p => stepRecoveries R p.1 (env p.1).probeOutcome) S).Sublist
      (S.map Prod.fst) := by
  induction S with
  | nil => simp [listJoinMap]
  | cons p rest ih =>
      rcases stepRecoveries_cases R p.1 (env p.1).probeOutcome with h | ⟨h, _, _⟩ <;>
      simp only [listJoinMap, h, List.map_cons] <;>
      first
      | exact List.Sublist.cons p.1 ih
      | simpa using List.Sublist.cons₂ p.1 ih

lemma tickRecoveries_mem (S R : List (String × String)) (env : Env) (s : String)
    (hs : s ∈ listJoinMap (fun p => stepRecoveries R p.1 (env p.1).probeOutcome) S) :
    (check_service_health (env s).probeOutcome).1 = false
      ∧ (R.lookup s).isSome = true := by
  induction S with
  | nil => exact absurd hs (by simp [listJoinMap])
  | cons p rest ih =>
      rw [listJoinMap] at hs
      rcases List.mem_append.mp hs with h | h
      · rcases stepRecoveries_cases R p.1 (env p.1).probeOutcome with hc | ⟨hc, hp, hl⟩
        · rw [hc] at h; exact absurd h (by simp)
        · rw [hc] at h
          have : s = p.1 := by simpa using h
          rw [this]; exact ⟨hp, hl⟩
      · exact ih h

/-- Claim C5: during one tick, for every service s, the recovery executor is
invoked at most once for s (the service dictionary has unique keys), and an
invocation happens only when the probe of s came back unhealthy this tick —
that is, only while the state machine regards s as Down — and only when a
recovery command is configured for s. -/
theorem C5_recovery_once_per_tick_only_when_down (S R : List (String × String))
    (env : Env) (now : Nat) (st : OrchState) (s : String)
    (hnd : (S.map Prod.fst).Nodup) :
    ((monitor_services S R env now st).recoveries.drop st.recoveries.length).count s ≤ 1
    ∧ (s ∈ (monitor_services S R env now st).recoveries.drop st.recoveries.length →
        (check_service_health (env s).probeOutcome).1 = false
          ∧ (R.lookup s).isSome = true) := by
  rw [monitor_recoveries, List.drop_left]
  constructor
  · exact le_trans ((tickRecoveries_sublist S R env).count_le s)
      (List.nodup_iff_count_le_one.mp hnd s)
  · exact tickRecoveries_mem S R env s

/-- Claim C5 (witness): the concrete service table of the script, all probes
failing, evaluated for nginx. -/
theorem C5_recovery_once_witness :
    ((monitor_services SERVICES_TO_MONITOR RECOVERY_COMMANDS probeFailEnv 0
        initState).recoveries.drop initState.recoveries.length).count "nginx" ≤ 1
    ∧ ((check_service_health (probeFailEnv "nginx").probeOutcome).1 = false
        ∧ (RECOVERY_COMMANDS.lookup "nginx").isSome = true) := by
  refine ⟨(C5_recovery_once_per_tick_only_when_down SERVICES_TO_MONITOR
    RECOVERY_COMMANDS probeFailEnv 0 initState "nginx" (by decide)).1, ?_⟩
  exact (C5_recovery_once_per_tick_only_when_down SERVICES_TO_MONITOR
    RECOVERY_COMMANDS probeFailEnv 0 initState "nginx" (by decide)).2 (by decide)

/-! Store failure isolation, claim C8. -/

/-- The same external world except that every incident store write fails. -/
def envNoStore (env : Env) : Env := fun name => { env name with storeOk := false }

lemma log_incident_nostore (db : List Incident) (now : Nat) (a b c : String) :
    log_incident false db now a b c = db := rfl

lemma stepIncidents_nostore (name : String) (po : RunOutcome) (now : Nat)
    (prev : Status) : stepIncidents name po false now prev = [] := by
  by_cases h1 : (check_service_health po).1 = true <;>
  by_cases h2 : prev = Status.down <;>
  simp [stepIncidents, log_incident_nostore, h1, h2]

lemma processService_core (R : List (String × String)) (env1 env2 : Env)
    (now : Nat) (st1 st2 : OrchState) (p : String × String)
    (hp : (env1 p.1).probeOutcome = (env2 p.1).probeOutcome)
    (hr : (env1 p.1).recoveryOutcome = (env2 p.1).recoveryOutcome)
    (hs : st1.service_status = st2.service_status)
    (ha : st1.alerts = st2.alerts)
    (hv : st1.recoveries = st2.recoveries) :
    (processService R env1 now st1 p).service_status
        = (processService R env2 now st2 p).service_status
    ∧ (processService R env1 now st1 p).alerts
        = (processService R env2 now st2 p).alerts
    ∧ (processService R env1 now st1 p).recoveries
        = (processService R env2 now st2 p).recoveries := by
  rw [processService_decomp, processService_decomp, hp, hr, hs, ha, hv]
  exact ⟨rfl, rfl, rfl⟩

lemma monitor_core (S R : List (String × String)) (env1 env2 : Env)
    (now : Nat) (st1 st2 : OrchState)
    (hp : ∀ name, (env1 name).probeOutcome = (env2 name).probeOutcome)
    (hr : ∀ name, (env1 name).recoveryOutcome = (env2 name).recoveryOutcome)
    (hs : st1.service_status = st2.service_status)
    (ha : st1.alerts = st2.alerts)
    (hv : st1.recoveries = st2.recoveries) :
    (monitor_services S R env1 now st1).service_status
        = (monitor_services S R env2 now st2).service_status
    ∧ (monitor_services S R env1 now st1).alerts
        = (monitor_services S R env2 now st2).alerts
    ∧ (monitor_services S R env1 now st1).recoveries
        = (monitor_services S R env2 now st2).recoveries := by
  induction S generalizing st1 st2 with
  | nil => exact ⟨hs, ha, hv⟩
  | cons p rest ih =>
      have hone := processService_core R env1 env2 now st1 st2 p (hp p.1) (hr p.1)
        hs ha hv
      have h1 : (monitor_services (p :: rest) R env1 now st1)
          = monitor_services rest R env1 now (processService R env1 now st1 p) := by
        simp [monitor_services]
      have h2 : (monitor_services (p :: rest) R env2 now st2)
          = monitor_services rest R env2 now (processService R env2 now st2 p) := by
        simp [monitor_services]
      rw [h1, h2]
      exact ih _ _ hone.1 hone.2.1 hone.2.2

lemma monitor_nostore (S R : List (String × String)) (env : Env) (now : Nat)
    (st : OrchState) (hok : ∀ name, (env name).storeOk = false)
    (hi : st.incidents = []) :
    (monitor_services S R env now st).incidents = [] := by
  induction S generalizing st with
  | nil => exact hi
  | cons p rest ih =>
      have h1 : (monitor_services (p :: rest) R env now st)
          = monitor_services rest R env now (processService R env now st p) := by
        simp [monitor_services]
      rw [h1]
      refine ih _ ?_
      rw [processService_decomp]
      simp only [hok p.1]
      rw [stepIncidents_nostore]
      simp [hi]

/-- Claim C8: a run in which every incident store write fails produces, tick
for tick, exactly the same statuses, the same alerts and the same recovery
invocations as the same run with a working store — the failing write is caught
inside log_incident, which returns normally leaving the table unchanged, so no
tick is aborted and subsequent ticks still run; the only difference is that no
incident row is ever persisted. -/
theorem C8_store_write_failure_is_soft (S R : List (String × String))
    (envs : Nat → Env) (n : Nat) :
    (runTicks S R (fun t => envNoStore (envs t)) n).service_status
        = (runTicks S R envs n).service_status
    ∧ (runTicks S R (fun t => envNoStore (envs t)) n).alerts
        = (runTicks S R envs n).alerts
    ∧ (runTicks S R (fun t => envNoStore (envs t)) n).recoveries
        = (runTicks S R envs n).recoveries
    ∧ (runTicks S R (fun t => envNoStore (envs t)) n).incidents = []
    ∧ ∀ (db : List Incident) (now : Nat) (a b c : String),
        log_incident false db now a b c = db := by
  induction n with
  | zero => exact ⟨rfl, rfl, rfl, rfl, fun db now a b c => rfl⟩
  | succ n ih =>
      obtain ⟨ihs, iha, ihv, ihi, _⟩ := ih
      have hcore := monitor_core S R (envNoStore (envs n)) (envs n) n
        (runTicks S R (fun t => envNoStore (envs t)) n) (runTicks S R envs n)
        (fun name => rfl) (fun name => rfl) ihs iha ihv
      have hinc := monitor_nostore S R (envNoStore (envs n)) n
        (runTicks S R (fun t => envNoStore (envs t)) n) (fun name => rfl) ihi
      exact ⟨hcore.1, hcore.2.1, hcore.2.2, hinc, fun db now a b c => rfl⟩

/-! Per-service isolation, claims C9 and C10. -/

lemma stepAlerts_service (R : List (String × String)) (name : String)
    (po ro : RunOutcome) (prev : Status) :
    ∀ a ∈ stepAlerts R name po ro prev, a.service = name := by
  intro a ha
  by_cases h1 : (check_service_health po).1 = true <;>
  by_cases h2 : prev = Status.down <;>
  by_cases h3 : (R.lookup name).isSome = true <;>
  by_cases h4 : attempt_recovery ro = true <;>
  simp [stepAlerts, h1, h2, h3, h4] at ha <;>
  obtain rfl | rfl := ha <;> rfl

lemma stepIncidents_service (name : String) (po : RunOutcome) (storeOk : Bool)
    (now : Nat) (prev : Status) :
    ∀ i ∈ stepIncidents name po storeOk now prev, i.service_name = name := by
  intro i hi
  by_cases h1 : (check_service_health po).1 = true
  · simp [stepIncidents, h1] at hi
  · by_cases h2 : prev = Status.down
    · simp [stepIncidents, h1, h2] at hi
    · by_cases h5 : storeOk = true
      · simp [stepIncidents, log_incident, db_insert, h1, h2, h5] at hi
        simp [hi]
      · simp [stepIncidents, log_incident, db_insert, h1, h2, h5] at hi

lemma stepRecoveries_service (R : List (String × String)) (name : String)
    (po : RunOutcome) : ∀ t ∈ stepRecoveries R name po, t = name := by
  intro t ht
  rcases stepRecoveries_cases R name po with h | ⟨h, _, _⟩ <;> rw [h] at ht
  · exact absurd ht (by simp)
  · simpa using ht

lemma processService_agree (R : List (String × String)) (env1 env2 : Env)
    (now : Nat) (st1 st2 : OrchState) (p : String × String) (s : String)
    (he : env1 s = env2 s)
    (hst : st1.service_status s = st2.service_status s)
    (hal : st1.alerts.filter (fun a => a.service = s)
        = st2.alerts.filter (fun a => a.service = s))
    (hin : st1.incidents.filter (fun i => i.service_name = s)
        = st2.incidents.filter (fun i => i.service_name = s))
    (hrc : st1.recoveries.filter (fun t => t = s)
        = st2.recoveries.filter (fun t => t = s)) :
    (processService R env1 now st1 p).service_status s
        = (processService R env2 now st2 p).service_status s
    ∧ (processService R env1 now st1 p).alerts.filter (fun a => a.service = s)
        = (processService R env2 now st2 p).alerts.filter (fun a => a.service = s)
    ∧ (processService R env1 now st1 p).incidents.filter (fun i => i.service_name = s)
        = (processService R env2 now st2 p).incidents.filter (fun i => i.service_name = s)
    ∧ (processService R env1 now st1 p).recoveries.filter (fun t => t = s)
        = (processService R env2 now st2 p).recoveries.filter (fun t => t = s) := by
  rw [processService_decomp, processService_decomp]
  by_cases hps : p.1 = s
  · have he' : env1 p.1 = env2 p.1 := by rw [hps]; exact he
    have hst' : st1.service_status p.1 = st2.service_status p.1 := by
      rw [hps]; exact hst
    rw [he', hst']
    refine ⟨?_, ?_, ?_, ?_⟩
    · cases stepStatusWrite R p.1 (env2 p.1).probeOutcome (env2 p.1).recoveryOutcome with
      | none => exact hst
      | some v => simp [updateStatus, hst]
    · rw [List.filter_append, List.filter_append, hal]
    · rw [List.filter_append, List.filter_append, hin]
    · rw [List.filter_append, List.filter_append, hrc]
  · have e1 : ∀ (po ro : RunOutcome) (prev : Status),
        List.filter (fun a => decide (a.service = s)) (stepAlerts R p.1 po ro prev) = [] := by
      intro po ro prev
      refine List.filter_eq_nil_iff.mpr ?_
      intro a ha h
      exact hps ((stepAlerts_service R p.1 po ro prev a ha).symm.trans
        (of_decide_eq_true h))
    have e2 : ∀ (po : RunOutcome) (ok : Bool) (prev : Status),
        List.filter (fun i => decide (i.service_name = s))
          (stepIncidents p.1 po ok now prev) = [] := by
      intro po ok prev
      refine List.filter_eq_nil_iff.mpr ?_
      intro i hi h
      exact hps ((stepIncidents_service p.1 po ok now prev i hi).symm.trans
        (of_decide_eq_true h))
    have e3 : ∀ po : RunOutcome,
        List.filter (fun t => decide (t = s)) (stepRecoveries R p.1 po) = [] := by
      intro po
      refine List.filter_eq_nil_iff.mpr ?_
      intro t ht h
      exact hps ((stepRecoveries_service R p.1 po t ht).symm.trans
        (of_decide_eq_true h))
    refine ⟨?_, ?_, ?_, ?_⟩
    · have hsp : ¬ s = p.1 := fun h => hps h.symm
      cases stepStatusWrite R p.1 (env1 p.1).probeOutcome (env1 p.1).recoveryOutcome <;>
      cases stepStatusWrite R p.1 (env2 p.1).probeOutcome (env2 p.1).recoveryOutcome <;>
      simp [updateStatus, hsp, hst]
    · rw [List.filter_append, List.filter_append, hal, e1, e1]
    · rw [List.filter_append, List.filter_append, hin, e2, e2]
    · rw [List.filter_append, List.filter_append, hrc, e3, e3]

lemma monitor_agree (S R : List (String × String)) (env1 env2 : Env)
    (now : Nat) (st1 st2 : OrchState) (s : String)
    (he : env1 s = env2 s)
    (hst : st1.service_status s = st2.service_status s)
    (hal : st1.alerts.filter (fun a => a.service = s)
        = st2.alerts.filter (fun a => a.service = s))
    (hin : st1.incidents.filter (fun i => i.service_name = s)
        = st2.incidents.filter (fun i => i.service_name = s))
    (hrc : st1.recoveries.filter (fun t => t = s)
        = st2.recoveries.filter (fun t => t = s)) :
    (monitor_services S R env1 now st1).service_status s
        = (monitor_services S R env2 now st2).service_status s
    ∧ (monitor_services S R env1 now st1).alerts.filter (fun a => a.service = s)
        = (monitor_services S R env2 now st2).alerts.filter (fun a => a.service = s)
    ∧ (monitor_services S R env1 now st1).incidents.filter (fun i => i.service_name = s)
        = (monitor_services S R env2 now st2).incidents.filter (fun i => i.service_name = s)
    ∧ (monitor_services S R env1 now st1).recoveries.filter (fun t => t = s)
        = (monitor_services S R env2 now st2).recoveries.filter (fun t => t = s) := by
  induction S generalizing st1 st2 with
  | nil => exact ⟨hst, hal, hin, hrc⟩
  | cons p rest ih =>
      have hone := processService_agree R env1 env2 now st1 st2 p s he hst hal hin hrc
      have h1 : (monitor_services (p :: rest) R env1 now st1)
          = monitor_services rest R env1 now (processService R env1 now st1 p) := by
        simp [monitor_services]
      have h2 : (monitor_services (p :: rest) R env2 now st2)
          = monitor_services rest R env2 now (processService R env2 now st2 p) := by
        simp [monitor_services]
      rw [h1, h2]
      exact ih _ _ hone.1 hone.2.1 hone.2.2.1 hone.2.2.2

/-- Claim C9: within a tick, everything observable about service s — its
status, its alerts, its incident rows, its recovery invocations — depends only
on the external outcomes for s itself: two worlds that agree on s but may
differ arbitrarily (probe exceptions, recovery timeouts, notifier failures,
store write failures) at every other service give identical results for s, so
a failure while processing one service never aborts or skips the processing
of another. -/
theorem C9_per_service_isolation (S R : List (String × String))
    (env1 env2 : Env) (now : Nat) (st : OrchState) (s : String)
    (he : env1 s = env2 s) :
    (monitor_services S R env1 now st).service_status s
        = (monitor_services S R env2 now st).service_status s
    ∧ (monitor_services S R env1 now st).alerts.filter (fun a => a.service = s)
        = (monitor_services S R env2 now st).alerts.filter (fun a => a.service = s)
    ∧ (monitor_services S R env1 now st).incidents.filter (fun i => i.service_name = s)
        = (monitor_services S R env2 now st).incidents.filter (fun i => i.service_name = s)
    ∧ (monitor_services S R env1 now st).recoveries.filter (fun t => t = s)
        = (monitor_services S R env2 now st).recoveries.filter (fun t => t = s) :=
  monitor_agree S R env1 env2 now st st s he rfl rfl rfl rfl

/-- A world in which every service other than nginx fails in every possible
way: probes raise, recoveries time out, the webhook post fails, the store
write fails. -/
def chaosEnv : Env := fun name =>
  if name = "nginx" then probeFailEnv name
  else { probeOutcome := RunOutcome.raised "kaboom",
         recoveryOutcome := RunOutcome.timedOut,
         notifyOk := false, storeOk := false }

/-- Claim C9 (witness): with the concrete service table, the nginx results of
a tick are identical whether the other services behave or fail completely. -/
theorem C9_per_service_isolation_witness :
    (monitor_services SERVICES_TO_MONITOR RECOVERY_COMMANDS probeFailEnv 0
        initState).service_status "nginx"
      = (monitor_services SERVICES_TO_MONITOR RECOVERY_COMMANDS chaosEnv 0
          initState).service_status "nginx" :=
  (C9_per_service_isolation SERVICES_TO_MONITOR RECOVERY_COMMANDS probeFailEnv
    chaosEnv 0 initState "nginx" (by decide)).1

/-- Claim C10: the per-service step for service p touches no other status
entry: the status of every other service is unchanged by the probe, recovery,
alert and incident store calls made for p. -/
theorem C10_step_frames_other_statuses (R : List (String × String)) (env : Env)
    (now : Nat) (st : OrchState) (p : String × String) (t : String)
    (h : t ≠ p.1) :
    (processService R env now st p).service_status t = st.service_status t := by
  rw [processService_decomp]
  cases stepStatusWrite R p.1 (env p.1).probeOutcome (env p.1).recoveryOutcome <;>
  simp [updateStatus, h]

/-- Claim C10 (witness): the nginx step of the concrete configuration leaves
the redis status entry untouched. -/
theorem C10_step_frames_witness :
    (processService RECOVERY_COMMANDS probeFailEnv 0 initState
        ("nginx", "/usr/sbin/nginx -t")).service_status "redis"
      = initState.service_status "redis" :=
  C10_step_frames_other_statuses RECOVERY_COMMANDS probeFailEnv 0 initState
    ("nginx", "/usr/sbin/nginx -t") "redis" (by decide)

end IRA
